import Mathlib

/-!
Verification of the notemaker manifest-backed document store
(`src-tauri/src/fs/commands.rs` and `src-tauri/src/fs/types.rs`).

The store operates on a container directory holding a JSON manifest
(`.index.json`) plus one content file per entry.  We embed a container's
on-disk state shallowly: the manifest file is either absent (`none`) or
present with parsed contents (`some idx`) — the serde JSON encode/decode
layer is outside the repository and is modelled as the identity on parsed
values — and the sibling content files are a map from filename to file
contents.  Each store operation is translated directly from the Rust
source; fallible operations return `Except FsError`, and every operation
additionally reports the ordered list of file-system mutation events it
performed, so that write-ordering properties can be stated.
-/

/-- On-disk content files of one container directory: filename ↦ contents.
`none` means the file does not exist. -/
abbrev FileMap := String → Option String

/-- Overwrite-or-create a file (`std::fs::write`). -/
def fsWrite (m : FileMap) (name content : String) : FileMap :=
  fun n => if n = name then some content else m n

/-- Delete a file (`std::fs::remove_file`). -/
def fsRemove (m : FileMap) (name : String) : FileMap :=
  fun n => if n = name then none else m n

/-- A directory with no content files. -/
def emptyFiles : FileMap := fun _ => none

/-- Error type of the store, from `enum FsError` in `fs/commands.rs`.
The `Io` variant (wrapping `std::io::Error`) is rendered here as `ioErr`
carrying the message text. -/
inductive FsError where
  | ioErr (msg : String)
  | NotFound (msg : String)
  | InvalidPath (msg : String)
  | Yaml (msg : String)
  | PathTraversal
deriving DecidableEq

/-- File-system mutation events, in the order an operation performs them.
`writeIndex` is a save of the container's manifest file (`.index.json`);
`writeFile`/`removeFile` touch entry content files. -/
inductive FsEvent where
  | writeFile (name : String) (content : String)
  | removeFile (name : String)
  | writeIndex
deriving DecidableEq

/-- Notebook block kind, from `enum BlockType` in `fs/types.rs`. -/
inductive BlockType where
  | markdown
  | code
deriving DecidableEq

/-- A manifest entry of a notebook, from `struct NotebookBlock`. -/
structure NotebookBlock where
  id : String
  block_type : BlockType
  file : String
  language : Option String
  encrypted : Option Bool
deriving DecidableEq

/-- Notebook manifest, from `struct NotebookIndex`. -/
structure NotebookIndex where
  version : Nat
  blocks : List NotebookBlock
deriving DecidableEq

/-- Default notebook manifest, from `impl Default for NotebookIndex`. -/
def NotebookIndex.default : NotebookIndex :=
  { version := 1, blocks := [] }

/-- A block hydrated with its content, from `struct NotebookBlockWithContent`. -/
structure NotebookBlockWithContent where
  id : String
  block_type : BlockType
  language : Option String
  content : String
  encrypted : Option Bool
deriving DecidableEq

/-- On-disk state of one notebook container directory: the manifest file
(absent or parsed) and the sibling content files. -/
structure NotebookDir where
  index : Option NotebookIndex
  files : FileMap

/-- A kanban task manifest entry, from `struct KanbanTask`. -/
structure KanbanTask where
  id : String
  title : String
  status : String
  priority : Option String
  due : Option String
  created : String
  updated : String
deriving DecidableEq

/-- Kanban display settings, from `struct KanbanSettings`. -/
structure KanbanSettings where
  card_density : String
  show_closed : Bool
deriving DecidableEq

/-- Default kanban settings, from `impl Default for KanbanSettings`. -/
def KanbanSettings.default : KanbanSettings :=
  { card_density := "standard", show_closed := false }

/-- Kanban manifest, from `struct KanbanIndex`. -/
structure KanbanIndex where
  version : Nat
  columns : List String
  tasks : List KanbanTask
  settings : KanbanSettings
deriving DecidableEq

/-- Default kanban manifest, from `impl Default for KanbanIndex`. -/
def KanbanIndex.default : KanbanIndex :=
  { version := 1, columns := ["todo", "in_progress", "done"], tasks := [],
    settings := KanbanSettings.default }

/-- A task hydrated with its description, from `struct KanbanTaskWithContent`. -/
structure KanbanTaskWithContent where
  id : String
  title : String
  status : String
  priority : Option String
  due : Option String
  created : String
  updated : String
  description : String
deriving DecidableEq

/-- Partial update record for a task, from `struct TaskUpdates`. -/
structure TaskUpdates where
  title : Option String
  status : Option String
  priority : Option String
  due : Option String
  description : Option String
deriving DecidableEq

/-- On-disk state of one kanban container directory. -/
structure KanbanDir where
  index : Option KanbanIndex
  files : FileMap

/-- Position-and-element lookup: `findWithPos p l = some (i, x)` when `x` is
the first element of `l` satisfying `p`, at index `i` (Rust
`iter().position` / `iter().find`). -/
def findWithPos {α : Type} (p : α → Bool) : List α → Option (Nat × α)
  | [] => none
  | x :: xs => if p x then some (0, x) else (findWithPos p xs).map (fun r => (r.1 + 1, r.2))

/-- Element at an index (`Vec` indexing). -/
def getAt {α : Type} : List α → Nat → Option α
  | [], _ => none
  | x :: _, 0 => some x
  | _ :: xs, n + 1 => getAt xs n

/-- Remove the element at an index (Rust `Vec::remove`; identity when out of
bounds, which the translated operations never rely on). -/
def removeAt {α : Type} : List α → Nat → List α
  | [], _ => []
  | _ :: xs, 0 => xs
  | x :: xs, n + 1 => x :: removeAt xs n

/-- Insert an element at an index (Rust `Vec::insert`; appends when the index
is at or beyond the end). -/
def insertAt {α : Type} : List α → Nat → α → List α
  | xs, 0, a => a :: xs
  | [], _ + 1, a => [a]
  | x :: xs, n + 1, a => x :: insertAt xs n a

/-- Replace the element at an index (in-place mutation through
`iter_mut().find`). -/
def setAt {α : Type} : List α → Nat → α → List α
  | [], _, _ => []
  | _ :: xs, 0, a => a :: xs
  | x :: xs, n + 1, a => x :: setAt xs n a

/-- String emptiness (Rust `str::is_empty`). -/
def strIsEmpty (s : String) : Bool := s.data.isEmpty

/-- Trim whitespace from both ends (Rust `str::trim`, restricted to the
ASCII whitespace the repository's inputs use). -/
def trimStr (s : String) : String :=
  ⟨((s.data.dropWhile Char.isWhitespace).reverse.dropWhile Char.isWhitespace).reverse⟩

/-- Trim trailing whitespace (Rust `str::trim_end`). -/
def trimEndStr (s : String) : String :=
  ⟨(s.data.reverse.dropWhile Char.isWhitespace).reverse⟩

/-- Map a code language to a file extension, from `language_to_extension`. -/
def language_to_extension (language : String) : String :=
  if language = "python" then "py"
  else if language = "javascript" then "js"
  else if language = "typescript" then "ts"
  else if language = "rust" then "rs"
  else if language = "sql" then "sql"
  else if language = "bash" ∨ language = "shell" ∨ language = "sh" then "sh"
  else if language = "markdown" ∨ language = "md" then "md"
  else "txt"

/-- Extension chosen for a block of a given kind/language: `md` for markdown,
`language_to_extension(language.unwrap_or("txt"))` for code (the expression
shared by `add_notebook_block` and `change_block_type`). -/
def blockExt (block_type : BlockType) (language : Option String) : String :=
  if block_type = BlockType.code then language_to_extension (language.getD "txt") else "md"

/-- Load the notebook manifest, from `read_notebook_index`: a missing
manifest file yields `NotebookIndex::default()` instead of an error. -/
def read_notebook_index (d : NotebookDir) : Except FsError NotebookIndex :=
  match d.index with
  | some idx => Except.ok idx
  | none => Except.ok NotebookIndex.default

/-- Add a block, from `add_notebook_block`.  The generated id (clock-derived
in `generate_block_id`) is passed in as `block_id`.  Writes the empty content
file, then inserts the manifest entry after `after_block_id` when that id is
found (else appends), then saves the manifest. -/
def add_notebook_block (d : NotebookDir) (block_id : String) (block_type : BlockType)
    (language : Option String) (after_block_id : Option String) :
    Except FsError (NotebookBlockWithContent × NotebookDir × List FsEvent) :=
  match read_notebook_index d with
  | Except.error e => Except.error e
  | Except.ok idx =>
    let block_file := block_id ++ "." ++ blockExt block_type language
    let files1 := fsWrite d.files block_file ""
    let new_block : NotebookBlock :=
      { id := block_id, block_type := block_type, file := block_file,
        language := language, encrypted := none }
    let new_blocks :=
      match after_block_id with
      | some after_id =>
        match findWithPos (fun b => decide (b.id = after_id)) idx.blocks with
        | some pb => insertAt idx.blocks (pb.1 + 1) new_block
        | none => idx.blocks ++ [new_block]
      | none => idx.blocks ++ [new_block]
    Except.ok
      ({ id := block_id, block_type := block_type, language := language,
         content := "", encrypted := none },
       { index := some { idx with blocks := new_blocks }, files := files1 },
       [FsEvent.writeFile block_file "", FsEvent.writeIndex])

/-- Overwrite a block's content file, from `update_notebook_block`.  The
manifest is read to resolve the filename but never written. -/
def update_notebook_block (d : NotebookDir) (block_id content : String) :
    Except FsError (Unit × NotebookDir × List FsEvent) :=
  match read_notebook_index d with
  | Except.error e => Except.error e
  | Except.ok idx =>
    match findWithPos (fun b => decide (b.id = block_id)) idx.blocks with
    | none => Except.error (FsError.NotFound ("Block not found: " ++ block_id))
    | some pb =>
      Except.ok ((), { d with files := fsWrite d.files pb.2.file content },
        [FsEvent.writeFile pb.2.file content])

/-- Reorder a block, from `move_notebook_block`: remove at its current
position, reinsert at `min new_index (remaining length)`, save the
manifest. -/
def move_notebook_block (d : NotebookDir) (block_id : String) (new_index : Nat) :
    Except FsError (Unit × NotebookDir × List FsEvent) :=
  match read_notebook_index d with
  | Except.error e => Except.error e
  | Except.ok idx =>
    match findWithPos (fun b => decide (b.id = block_id)) idx.blocks with
    | none => Except.error (FsError.NotFound ("Block not found: " ++ block_id))
    | some pb =>
      let rest := removeAt idx.blocks pb.1
      let insert_pos := min new_index rest.length
      Except.ok ((), { d with index := some { idx with blocks := insertAt rest insert_pos pb.2 } },
        [FsEvent.writeIndex])

/-- Change a block's kind/language, from `change_block_type`: read the old
content (empty if the file is missing), write it to the new filename, delete
the old file only when the filename changed and the old file exists, rewrite
the manifest entry in place, save the manifest. -/
def change_block_type (d : NotebookDir) (block_id : String) (new_type : BlockType)
    (new_language : Option String) :
    Except FsError (NotebookBlockWithContent × NotebookDir × List FsEvent) :=
  match read_notebook_index d with
  | Except.error e => Except.error e
  | Except.ok idx =>
    match findWithPos (fun b => decide (b.id = block_id)) idx.blocks with
    | none => Except.error (FsError.NotFound ("Block not found: " ++ block_id))
    | some pb =>
      let old_file := pb.2.file
      let content := (d.files old_file).getD ""
      let new_file := block_id ++ "." ++ blockExt new_type new_language
      let files1 := fsWrite d.files new_file content
      let delete_old : Bool := decide (¬ old_file = new_file) && (files1 old_file).isSome
      let files2 := if delete_old then fsRemove files1 old_file else files1
      let new_block :=
        { pb.2 with block_type := new_type, language := new_language, file := new_file }
      Except.ok
        ({ id := block_id, block_type := new_type, language := new_language,
           content := content, encrypted := pb.2.encrypted },
         { index := some { idx with blocks := setAt idx.blocks pb.1 new_block }, files := files2 },
         [FsEvent.writeFile new_file content] ++
           (if delete_old then [FsEvent.removeFile old_file] else []) ++ [FsEvent.writeIndex])

/-- Load the kanban manifest, from `read_kanban_index`: the manifest file is
read unconditionally, so a missing file surfaces the underlying I/O error
(`std::io::ErrorKind::NotFound`) — there is no default-on-missing branch. -/
def read_kanban_index (d : KanbanDir) : Except FsError KanbanIndex :=
  match d.index with
  | some idx => Except.ok idx
  | none => Except.error (FsError.ioErr "No such file or directory (os error 2)")

/-- Add a task, from `add_kanban_task`.  The generated id and the timestamp
(`chrono::Utc::now().to_rfc3339()`) are passed in as `task_id` / `now`.
Rejects a blank title before any manifest access; otherwise appends the task
to the manifest, saves the manifest, and only then writes the description
file (and only when the description is non-empty). -/
def add_kanban_task (d : KanbanDir) (task_id now title : String)
    (status priority due description : Option String) :
    Except FsError (KanbanTaskWithContent × KanbanDir × List FsEvent) :=
  if strIsEmpty (trimStr title) then
    Except.error (FsError.InvalidPath "Task title cannot be empty")
  else
    match read_kanban_index d with
    | Except.error e => Except.error e
    | Except.ok idx =>
      let task_status := status.getD ((idx.columns.head?).getD "backlog")
      let task : KanbanTask :=
        { id := task_id, title := title, status := task_status, priority := priority,
          due := due, created := now, updated := now }
      let d1 : KanbanDir := { d with index := some { idx with tasks := idx.tasks ++ [task] } }
      let task_description := description.getD ""
      let result : KanbanTaskWithContent :=
        { id := task_id, title := title, status := task_status, priority := priority,
          due := due, created := now, updated := now, description := task_description }
      if strIsEmpty task_description then
        Except.ok (result, d1, [FsEvent.writeIndex])
      else
        Except.ok (result,
          { d1 with files := fsWrite d1.files (task_id ++ ".md") task_description },
          [FsEvent.writeIndex, FsEvent.writeFile (task_id ++ ".md") task_description])

/-- Apply a partial update to one task's manifest record, mirroring the
field-by-field mutation in `update_kanban_task`: a present `title`/`status`
replaces the old value; a present `priority`/`due` equal to the empty string
clears the field, a non-empty one replaces it; absent fields are untouched;
`updated` is always refreshed. -/
def applyTaskUpdates (t : KanbanTask) (updates : TaskUpdates) (now : String) : KanbanTask :=
  let t1 := match updates.title with | some v => { t with title := v } | none => t
  let t2 := match updates.status with | some v => { t1 with status := v } | none => t1
  let t3 := match updates.priority with
    | some v => { t2 with priority := if strIsEmpty v then none else some v }
    | none => t2
  let t4 := match updates.due with
    | some v => { t3 with due := if strIsEmpty v then none else some v }
    | none => t3
  { t4 with updated := now }

/-- Update a task's metadata, from `update_kanban_task`.  Mutates the found
task in place via `applyTaskUpdates`, writes the description file when a
description is part of the update (else reads the existing one, empty if
missing), and saves the manifest. -/
def update_kanban_task (d : KanbanDir) (now task_id : String) (updates : TaskUpdates) :
    Except FsError (KanbanTaskWithContent × KanbanDir × List FsEvent) :=
  match read_kanban_index d with
  | Except.error e => Except.error e
  | Except.ok idx =>
    match findWithPos (fun t => decide (t.id = task_id)) idx.tasks with
    | none => Except.error (FsError.NotFound ("Task not found: " ++ task_id))
    | some pt =>
      let t := applyTaskUpdates pt.2 updates now
      let task_path := task_id ++ ".md"
      let idx1 := { idx with tasks := setAt idx.tasks pt.1 t }
      match updates.description with
      | some desc =>
        Except.ok
          ({ id := t.id, title := t.title, status := t.status, priority := t.priority,
             due := t.due, created := t.created, updated := t.updated, description := desc },
           { index := some idx1, files := fsWrite d.files task_path desc },
           [FsEvent.writeFile task_path desc, FsEvent.writeIndex])
      | none =>
        let description := (d.files task_path).getD ""
        Except.ok
          ({ id := t.id, title := t.title, status := t.status, priority := t.priority,
             due := t.due, created := t.created, updated := t.updated,
             description := description },
           { d with index := some idx1 }, [FsEvent.writeIndex])

/-- Trace of file-system events of a successful operation (empty on error). -/
def resTrace {α : Type} : Except FsError (α × KanbanDir × List FsEvent) → List FsEvent
  | Except.ok r => r.2.2
  | Except.error _ => []

/-- Trace of file-system events of a successful notebook operation. -/
def resTraceNb {α : Type} : Except FsError (α × NotebookDir × List FsEvent) → List FsEvent
  | Except.ok r => r.2.2
  | Except.error _ => []

/-- Whether a result is a success. -/
def resOk {ε α : Type} : Except ε α → Bool
  | Except.ok _ => true
  | Except.error _ => false

/-- Whether an event is a manifest save. -/
def isWriteIndexEv : FsEvent → Bool
  | FsEvent.writeIndex => true
  | _ => false

/-- Whether, in a trace, some content-file write happens strictly before the
first manifest save ("content file written before the manifest is
persisted"). -/
def fileWriteBeforeIndexWrite : List FsEvent → Bool
  | [] => false
  | FsEvent.writeFile _ _ :: rest => rest.any isWriteIndexEv
  | FsEvent.removeFile _ :: rest => fileWriteBeforeIndexWrite rest
  | FsEvent.writeIndex :: _ => false

/-- Whether a character is a backtick. -/
def isTick (c : Char) : Bool := decide (c = Char.ofNat 96)

/-- Whether a line begins with three backticks (Rust
`line.starts_with("```")`). -/
def startsWithTicks (line : String) : Bool :=
  match line.data with
  | c1 :: c2 :: c3 :: _ => isTick c1 && isTick c2 && isTick c3
  | _ => false

/-- Strip all leading backticks (Rust `line.trim_start_matches('`')`),
leaving the fence line's language tag. -/
def dropTicks (line : String) : String :=
  ⟨line.data.dropWhile isTick⟩

/-- Split character data at newline characters, keeping empty segments
(helper for `rustLines`). -/
def splitLinesAux : List Char → List Char → List String
  | [], acc => [⟨acc.reverse⟩]
  | c :: rest, acc =>
    if decide (c = Char.ofNat 10) then ⟨acc.reverse⟩ :: splitLinesAux rest []
    else splitLinesAux rest (c :: acc)

/-- Strip one trailing carriage return from a line (Rust `str::lines`
semantics). -/
def stripCR (s : String) : String :=
  if s.data.getLast? = some (Char.ofNat 13) then ⟨s.data.dropLast⟩ else s

/-- Rust `str::lines`: split at newlines; a final trailing newline yields no
trailing empty line; each line loses one trailing carriage return. -/
def rustLines (content : String) : List String :=
  let parts := splitLinesAux content.data []
  let parts := if parts.getLast? = some "" then parts.dropLast else parts
  parts.map stripCR

/-- A parsed fragment, from `struct ParsedMarkdownBlock`. -/
structure ParsedMarkdownBlock where
  is_code : Bool
  language : Option String
  content : String
deriving DecidableEq

/-- The parser's loop state in `parse_markdown_blocks`: fragments emitted so
far, the markdown accumulator, the fence flag, and the fence accumulators. -/
structure ParseState where
  blocks : List ParsedMarkdownBlock
  current_text : String
  in_code_block : Bool
  code_language : String
  code_content : String
deriving DecidableEq

/-- Initial parser state. -/
def initState : ParseState :=
  { blocks := [], current_text := "", in_code_block := false,
    code_language := "", code_content := "" }

/-- One iteration of the line loop of `parse_markdown_blocks`. -/
def parseLine (st : ParseState) (line : String) : ParseState :=
  if startsWithTicks line then
    if st.in_code_block then
      { blocks := st.blocks ++
          [{ is_code := true,
             language := if strIsEmpty st.code_language then none else some st.code_language,
             content := trimEndStr st.code_content }],
        current_text := st.current_text, in_code_block := false,
        code_language := "", code_content := "" }
    else
      let trimmed := trimStr st.current_text
      let blocks1 :=
        if strIsEmpty trimmed then st.blocks
        else st.blocks ++ [{ is_code := false, language := none, content := trimmed }]
      { blocks := blocks1, current_text := "", in_code_block := true,
        code_language := dropTicks line, code_content := st.code_content }
  else if st.in_code_block then
    { st with code_content :=
        if strIsEmpty st.code_content then line else st.code_content ++ "\n" ++ line }
  else
    { st with current_text :=
        if strIsEmpty st.current_text then line else st.current_text ++ "\n" ++ line }

/-- The trailing-content handling after the line loop of
`parse_markdown_blocks`: an unterminated fence is still emitted as a code
fragment; otherwise the remaining markdown accumulation is emitted trimmed,
dropped if blank. -/
def finalizeParse (st : ParseState) : List ParsedMarkdownBlock :=
  if st.in_code_block then
    st.blocks ++
      [{ is_code := true,
         language := if strIsEmpty st.code_language then none else some st.code_language,
         content := trimEndStr st.code_content }]
  else
    let trimmed := trimStr st.current_text
    if strIsEmpty trimmed then st.blocks
    else st.blocks ++ [{ is_code := false, language := none, content := trimmed }]

/-- Split markdown into typed fragments, from `parse_markdown_blocks`. -/
def parse_markdown_blocks (content : String) : List ParsedMarkdownBlock :=
  finalizeParse ((rustLines content).foldl parseLine initState)

/-- Sample kanban manifest as produced by `create_kanban` (the five default
columns of `DEFAULT_COLUMNS`), with no tasks. -/
def kidx0 : KanbanIndex :=
  { version := 1, columns := ["backlog", "ready", "working", "done", "closed"],
    tasks := [], settings := KanbanSettings.default }

/-- Sample kanban task. -/
def kTask1 : KanbanTask :=
  { id := "t1", title := "Hello", status := "backlog", priority := some "high",
    due := none, created := "2024-01-01T00:00:00Z", updated := "2024-01-01T00:00:00Z" }

/-- Sample kanban manifest holding `kTask1`. -/
def kidx1 : KanbanIndex :=
  { kidx0 with tasks := [kTask1] }

/-- Sample kanban board directory holding `kidx1` and the task's
description file. -/
def kb1 : KanbanDir :=
  { index := some kidx1, files := fsWrite emptyFiles "t1.md" "the description" }

/-- Sample notebook block: a markdown block. -/
def nbBlock1 : NotebookBlock :=
  { id := "b1", block_type := BlockType.markdown, file := "b1.md",
    language := none, encrypted := none }

/-- Sample notebook manifest holding `nbBlock1`. -/
def nbIdx1 : NotebookIndex :=
  { version := 1, blocks := [nbBlock1] }

/-- Sample notebook directory holding `nbIdx1` and the block's content
file. -/
def nb1 : NotebookDir :=
  { index := some nbIdx1, files := fsWrite emptyFiles "b1.md" "# hi" }

/-- Sample markdown block with id `m1`. -/
def mB1 : NotebookBlock :=
  { id := "m1", block_type := BlockType.markdown, file := "m1.md",
    language := none, encrypted := none }

/-- Sample markdown block with id `m2`. -/
def mB2 : NotebookBlock :=
  { id := "m2", block_type := BlockType.markdown, file := "m2.md",
    language := none, encrypted := none }

/-- Sample markdown block with id `m3`. -/
def mB3 : NotebookBlock :=
  { id := "m3", block_type := BlockType.markdown, file := "m3.md",
    language := none, encrypted := none }

/-- Sample three-entry notebook manifest. -/
def nbIdx3 : NotebookIndex :=
  { version := 1, blocks := [mB1, mB2, mB3] }

/-- Sample notebook directory holding `nbIdx3`. -/
def nb3 : NotebookDir :=
  { index := some nbIdx3, files := emptyFiles }

/-- When no element satisfies the predicate, `findWithPos` finds nothing. -/
theorem findWithPos_eq_none {α : Type} {p : α → Bool} :
    ∀ {l : List α}, (∀ x ∈ l, p x = false) → findWithPos p l = none := by
  intro l
  induction l with
  | nil => intro _; rfl
  | cons x xs ih =>
    intro h
    have hx : p x = false := h x (List.mem_cons_self x xs)
    have hxs : findWithPos p xs = none := ih (fun y hy => h y (List.mem_cons_of_mem x hy))
    simp [findWithPos, hx, hxs]

/-- Inserting at or beyond the end of a list appends. -/
theorem insertAt_of_length_le {α : Type} :
    ∀ (l : List α) (n : Nat) (a : α), l.length ≤ n → insertAt l n a = l ++ [a] := by
  intro l
  induction l with
  | nil =>
    intro n a _
    cases n with
    | zero => rfl
    | succ m => rfl
  | cons x xs ih =>
    intro n a h
    cases n with
    | zero => simp at h
    | succ m =>
      have hm : xs.length ≤ m := Nat.le_of_succ_le_succ (by simpa using h)
      simp [insertAt, ih m a hm]

/-- Claim C1, counterexample: on a kanban container whose manifest file is
absent, `read_kanban_index` does not return the default manifest — it fails
(with the underlying I/O error), because unlike `read_notebook_index` it has
no default-on-missing branch. -/
theorem read_kanban_index_missing_manifest_fails :
    read_kanban_index { index := none, files := emptyFiles } ≠ Except.ok KanbanIndex.default ∧
    resOk (read_kanban_index { index := none, files := emptyFiles }) = false := by
  constructor
  · intro h
    exact Except.noConfusion h
  · rfl

/-- Claim C1 (amended): for every container whose manifest file is absent,
the notebook load `read_notebook_index` returns the default empty manifest
(version 1, no entries) and does not fail; the kanban load
`read_kanban_index`, by contrast, fails with an I/O error on a missing
manifest file (the `KanbanIndex` default is never consulted there). -/
theorem manifest_load_missing_default (nf kf : FileMap) :
    read_notebook_index { index := none, files := nf } =
      Except.ok { version := 1, blocks := [] } ∧
    read_kanban_index { index := none, files := kf } =
      Except.error (FsError.ioErr "No such file or directory (os error 2)") :=
  ⟨rfl, rfl⟩

/-- Claim C10: a kanban add-task call whose title is empty or all whitespace
fails with `InvalidPath` before reading or writing anything — the error is
produced uniformly for every starting state (even one whose manifest file is
missing), so the board is left unchanged. -/
theorem add_kanban_task_blank_title (d : KanbanDir) (task_id now title : String)
    (status priority due description : Option String)
    (h : strIsEmpty (trimStr title) = true) :
    add_kanban_task d task_id now title status priority due description =
      Except.error (FsError.InvalidPath "Task title cannot be empty") := by
  simp [add_kanban_task, h]

/-- Witness for claim C10 at a whitespace-only title and a board whose
manifest file is absent: the result is the `InvalidPath` error, not the
I/O error that reading the missing manifest would raise. -/
theorem add_kanban_task_blank_title_witness :
    add_kanban_task { index := none, files := emptyFiles } "t9" "2024-01-01T00:00:00Z" "  "
        none none none none =
      Except.error (FsError.InvalidPath "Task title cannot be empty") :=
  add_kanban_task_blank_title { index := none, files := emptyFiles } "t9"
    "2024-01-01T00:00:00Z" "  " none none none none (by decide)

/-- Claim C2, counterexample: `add_kanban_task` with a non-empty description
saves the manifest first and writes the task's content file second — the
trace shows the manifest save preceding the file write, so the claimed
"content file before manifest" order is violated on the kanban side. -/
theorem add_kanban_task_manifest_written_first :
    resTrace (add_kanban_task { index := some kidx0, files := emptyFiles }
        "t1" "2024-01-01T00:00:00Z" "Task" none none none (some "desc")) =
      [FsEvent.writeIndex, FsEvent.writeFile "t1.md" "desc"] ∧
    fileWriteBeforeIndexWrite
      (resTrace (add_kanban_task { index := some kidx0, files := emptyFiles }
        "t1" "2024-01-01T00:00:00Z" "Task" none none none (some "desc"))) = false := by
  constructor <;> rfl

/-- Claim C2 (amended): the notebook add writes the entry's content file
before saving the manifest, but the kanban add saves the manifest first and
writes the description file only afterwards (and only when the description
is non-empty). -/
theorem entry_file_before_manifest_on_add :
    (∀ (d : NotebookDir) (block_id : String) (bt : BlockType) (language after : Option String),
      resTraceNb (add_notebook_block d block_id bt language after) =
        [FsEvent.writeFile (block_id ++ "." ++ blockExt bt language) "", FsEvent.writeIndex] ∧
      fileWriteBeforeIndexWrite
        (resTraceNb (add_notebook_block d block_id bt language after)) = true) ∧
    (∀ (d : KanbanDir) (idx : KanbanIndex) (task_id now title : String)
        (status priority due description : Option String),
      d.index = some idx → strIsEmpty (trimStr title) = false →
      resTrace (add_kanban_task d task_id now title status priority due description) =
        FsEvent.writeIndex ::
          (if strIsEmpty (description.getD "") then []
           else [FsEvent.writeFile (task_id ++ ".md") (description.getD "")])) := by
  constructor
  · intro d block_id bt language after
    cases hd : d.index with
    | none =>
      constructor <;>
        simp [add_notebook_block, read_notebook_index, hd, resTraceNb,
          fileWriteBeforeIndexWrite, List.any, isWriteIndexEv]
    | some idx =>
      constructor <;>
        simp [add_notebook_block, read_notebook_index, hd, resTraceNb,
          fileWriteBeforeIndexWrite, List.any, isWriteIndexEv]
  · intro d idx task_id now title status priority due description hidx htitle
    cases hdesc : strIsEmpty (description.getD "") with
    | false =>
      simp [add_kanban_task, read_kanban_index, hidx, htitle, hdesc, resTrace]
    | true =>
      simp [add_kanban_task, read_kanban_index, hidx, htitle, hdesc, resTrace]

/-- Witness for claim C2 (amended) at concrete inputs: a notebook add on the
one-block notebook traces file-then-manifest, and a kanban add with a
description on the empty board traces manifest-first. -/
theorem entry_file_before_manifest_on_add_witness :
    resTraceNb (add_notebook_block nb1 "b2" BlockType.markdown none none) =
      [FsEvent.writeFile "b2.md" "", FsEvent.writeIndex] ∧
    resTrace (add_kanban_task { index := some kidx0, files := emptyFiles }
        "t3" "2024-01-01T00:00:00Z" "T" none none none (some "body")) =
      FsEvent.writeIndex :: [FsEvent.writeFile "t3.md" "body"] := by
  constructor
  · exact (entry_file_before_manifest_on_add.1 nb1 "b2" BlockType.markdown none none).1
  · exact entry_file_before_manifest_on_add.2 { index := some kidx0, files := emptyFiles }
      kidx0 "t3" "2024-01-01T00:00:00Z" "T" none none none (some "body") rfl (by decide)

/-- Claim C9: `update_notebook_block` fails with `NotFound` when no manifest
entry has the given id; when an entry exists it overwrites only that entry's
content file — the manifest is untouched (the returned directory's manifest
equals the input's and the trace holds a single content-file write, no
manifest save) and every other file is unchanged. -/
theorem update_notebook_block_spec (d : NotebookDir) (idx : NotebookIndex)
    (block_id content : String) (hidx : d.index = some idx) :
    ((∀ b ∈ idx.blocks, b.id ≠ block_id) →
      update_notebook_block d block_id content =
        Except.error (FsError.NotFound ("Block not found: " ++ block_id))) ∧
    (∀ pos b, findWithPos (fun x => decide (x.id = block_id)) idx.blocks = some (pos, b) →
      ∃ d', update_notebook_block d block_id content =
          Except.ok ((), d', [FsEvent.writeFile b.file content]) ∧
        d'.index = d.index ∧
        d'.files b.file = some content ∧
        (∀ nm, nm ≠ b.file → d'.files nm = d.files nm)) := by
  constructor
  · intro h
    have hf : findWithPos (fun x => decide (x.id = block_id)) idx.blocks = none :=
      findWithPos_eq_none (fun x hx => by simpa using h x hx)
    simp [update_notebook_block, read_notebook_index, hidx, hf]
  · intro pos b hfind
    refine ⟨{ d with files := fsWrite d.files b.file content }, ?_, rfl, ?_, ?_⟩
    · simp [update_notebook_block, read_notebook_index, hidx, hfind]
    · simp [fsWrite]
    · intro nm hnm
      simp [fsWrite, hnm]

/-- Witness for claim C9 on the one-block notebook: the block's file is
overwritten, the manifest and an unrelated filename are untouched. -/
theorem update_notebook_block_spec_witness :
    ∃ d', update_notebook_block nb1 "b1" "new text" =
        Except.ok ((), d', [FsEvent.writeFile "b1.md" "new text"]) ∧
      d'.index = nb1.index ∧
      d'.files "b1.md" = some "new text" ∧
      d'.files "other.md" = nb1.files "other.md" := by
  obtain ⟨d', h1, h2, h3, h4⟩ :=
    (update_notebook_block_spec nb1 nbIdx1 "b1" "new text" rfl).2 0 nbBlock1 (by decide)
  exact ⟨d', h1, h2, h3, h4 "other.md" (by decide)⟩

/-- Claim C4: `move_notebook_block` fails with `NotFound` when no entry has
the given id; otherwise it removes the entry from its position and reinserts
it at `min new_index (length of the remaining list)`, so an index at or
beyond the end appends — it never errors on large indices. -/
theorem move_notebook_block_spec (d : NotebookDir) (idx : NotebookIndex)
    (block_id : String) (new_index : Nat) (hidx : d.index = some idx) :
    ((∀ b ∈ idx.blocks, b.id ≠ block_id) →
      move_notebook_block d block_id new_index =
        Except.error (FsError.NotFound ("Block not found: " ++ block_id))) ∧
    (∀ pos b, findWithPos (fun x => decide (x.id = block_id)) idx.blocks = some (pos, b) →
      move_notebook_block d block_id new_index =
        Except.ok ((), { d with index := some { idx with blocks := insertAt (removeAt idx.blocks pos) (min new_index (removeAt idx.blocks pos).length) b } },
          [FsEvent.writeIndex]) ∧
      ((removeAt idx.blocks pos).length ≤ new_index →
        move_notebook_block d block_id new_index =
          Except.ok ((), { d with index := some { idx with blocks := removeAt idx.blocks pos ++ [b] } }, [FsEvent.writeIndex]))) := by
  constructor
  · intro h
    have hf : findWithPos (fun x => decide (x.id = block_id)) idx.blocks = none :=
      findWithPos_eq_none (fun x hx => by simpa using h x hx)
    simp [move_notebook_block, read_notebook_index, hidx, hf]
  · intro pos b hfind
    constructor
    · simp [move_notebook_block, read_notebook_index, hidx, hfind]
    · intro hlen
      have hmin : min new_index (removeAt idx.blocks pos).length =
          (removeAt idx.blocks pos).length := Nat.min_eq_right hlen
      simp [move_notebook_block, read_notebook_index, hidx, hfind, hmin,
        insertAt_of_length_le _ _ _ (Nat.le_refl _)]

/-- Witness for claim C4 on a three-entry manifest with `new_index = 1000`:
the move clamps to an append, leaving the moved entry last. -/
theorem move_notebook_block_spec_witness :
    move_notebook_block nb3 "m1" 1000 =
      Except.ok ((), { nb3 with index := some { version := 1, blocks := [mB2, mB3, mB1] } },
        [FsEvent.writeIndex]) ∧
    2 ≤ 1000 := by
  constructor
  · exact ((move_notebook_block_spec nb3 nbIdx3 "m1" 1000 rfl).2 0 mB1 (by decide)).2
      (by decide)
  · decide

/-- Claim C5: `add_notebook_block` inserts the new manifest entry immediately
after the entry whose id equals `after_block_id` when that id is found;
with no `after_block_id`, or one matching no entry, it appends; in all cases
the returned block has empty content and an empty content file is written
under the new block's filename. -/
theorem add_notebook_block_spec (d : NotebookDir) (idx : NotebookIndex) (block_id : String)
    (bt : BlockType) (language : Option String) (hidx : d.index = some idx) :
    (∀ after_id pos b, findWithPos (fun x => decide (x.id = after_id)) idx.blocks = some (pos, b) →
      add_notebook_block d block_id bt language (some after_id) =
        Except.ok ({ id := block_id, block_type := bt, language := language, content := "", encrypted := none },
          { index := some { idx with blocks := insertAt idx.blocks (pos + 1) { id := block_id, block_type := bt, file := block_id ++ "." ++ blockExt bt language, language := language, encrypted := none } }, files := fsWrite d.files (block_id ++ "." ++ blockExt bt language) "" },
          [FsEvent.writeFile (block_id ++ "." ++ blockExt bt language) "", FsEvent.writeIndex])) ∧
    (add_notebook_block d block_id bt language none =
        Except.ok ({ id := block_id, block_type := bt, language := language, content := "", encrypted := none },
          { index := some { idx with blocks := idx.blocks ++ [{ id := block_id, block_type := bt, file := block_id ++ "." ++ blockExt bt language, language := language, encrypted := none }] }, files := fsWrite d.files (block_id ++ "." ++ blockExt bt language) "" },
          [FsEvent.writeFile (block_id ++ "." ++ blockExt bt language) "", FsEvent.writeIndex])) ∧
    (∀ after_id, findWithPos (fun x => decide (x.id = after_id)) idx.blocks = none →
      add_notebook_block d block_id bt language (some after_id) =
        Except.ok ({ id := block_id, block_type := bt, language := language, content := "", encrypted := none },
          { index := some { idx with blocks := idx.blocks ++ [{ id := block_id, block_type := bt, file := block_id ++ "." ++ blockExt bt language, language := language, encrypted := none }] }, files := fsWrite d.files (block_id ++ "." ++ blockExt bt language) "" },
          [FsEvent.writeFile (block_id ++ "." ++ blockExt bt language) "", FsEvent.writeIndex])) ∧
    (∀ after, Except.map (fun r => (r.1.content, r.2.1.files (block_id ++ "." ++ blockExt bt language)))
        (add_notebook_block d block_id bt language after) = Except.ok ("", some "")) := by
  refine ⟨?_, ?_, ?_, ?_⟩
  · intro after_id pos b hfind
    simp [add_notebook_block, read_notebook_index, hidx, hfind]
  · simp [add_notebook_block, read_notebook_index, hidx]
  · intro after_id hfind
    simp [add_notebook_block, read_notebook_index, hidx, hfind]
  · intro after
    cases after with
    | none =>
      simp [add_notebook_block, read_notebook_index, hidx, Except.map, fsWrite]
    | some after_id =>
      cases hfind : findWithPos (fun x => decide (x.id = after_id)) idx.blocks with
      | none => simp [add_notebook_block, read_notebook_index, hidx, hfind, Except.map, fsWrite]
      | some pb => simp [add_notebook_block, read_notebook_index, hidx, hfind, Except.map, fsWrite]

/-- Witness for claim C5 on the three-entry notebook: adding after `m1`
inserts in second position; adding after a nonexistent id appends. -/
theorem add_notebook_block_spec_witness :
    add_notebook_block nb3 "b9" BlockType.markdown none (some "m1") =
      Except.ok ({ id := "b9", block_type := BlockType.markdown, language := none, content := "", encrypted := none },
        { index := some { version := 1, blocks := [mB1, { id := "b9", block_type := BlockType.markdown, file := "b9.md", language := none, encrypted := none }, mB2, mB3] }, files := fsWrite nb3.files "b9.md" "" },
        [FsEvent.writeFile "b9.md" "", FsEvent.writeIndex]) ∧
    add_notebook_block nb3 "b9" BlockType.markdown none (some "nonexistent") =
      Except.ok ({ id := "b9", block_type := BlockType.markdown, language := none, content := "", encrypted := none },
        { index := some { version := 1, blocks := [mB1, mB2, mB3, { id := "b9", block_type := BlockType.markdown, file := "b9.md", language := none, encrypted := none }] }, files := fsWrite nb3.files "b9.md" "" },
        [FsEvent.writeFile "b9.md" "", FsEvent.writeIndex]) := by
  constructor
  · exact (add_notebook_block_spec nb3 nbIdx3 "b9" BlockType.markdown none rfl).1
      "m1" 0 mB1 (by decide)
  · exact (add_notebook_block_spec nb3 nbIdx3 "b9" BlockType.markdown none rfl).2.2.1
      "nonexistent" (by decide)

/-- Claim C3: `change_block_type` fails with `NotFound` when no entry has the
given id; otherwise it reads the current content (empty if the content file
is missing), writes that content to the file named from the new
kind/language, deletes the old file exactly when the new filename differs,
and rewrites the manifest entry in place with the new kind, language and
filename while preserving the entry's id and encrypted flag; all other
files are untouched. -/
theorem change_block_type_spec (d : NotebookDir) (idx : NotebookIndex) (block_id : String)
    (new_type : BlockType) (new_language : Option String) (hidx : d.index = some idx) :
    ((∀ b ∈ idx.blocks, b.id ≠ block_id) →
      change_block_type d block_id new_type new_language =
        Except.error (FsError.NotFound ("Block not found: " ++ block_id))) ∧
    (∀ pos b, findWithPos (fun x => decide (x.id = block_id)) idx.blocks = some (pos, b) →
      ∃ d' tr, change_block_type d block_id new_type new_language =
          Except.ok ({ id := block_id, block_type := new_type, language := new_language, content := (d.files b.file).getD "", encrypted := b.encrypted }, d', tr) ∧
        d'.index = some { idx with blocks := setAt idx.blocks pos { b with block_type := new_type, language := new_language, file := block_id ++ "." ++ blockExt new_type new_language } } ∧
        d'.files (block_id ++ "." ++ blockExt new_type new_language) = some ((d.files b.file).getD "") ∧
        (block_id ++ "." ++ blockExt new_type new_language ≠ b.file → d'.files b.file = none) ∧
        (block_id ++ "." ++ blockExt new_type new_language = b.file → d'.files b.file = some ((d.files b.file).getD "")) ∧
        (∀ nm, nm ≠ b.file → nm ≠ block_id ++ "." ++ blockExt new_type new_language → d'.files nm = d.files nm)) := by
  constructor
  · intro h
    have hf : findWithPos (fun x => decide (x.id = block_id)) idx.blocks = none :=
      findWithPos_eq_none (fun x hx => by simpa using h x hx)
    simp [change_block_type, read_notebook_index, hidx, hf]
  · intro pos b hfind
    simp only [change_block_type, read_notebook_index, hidx, hfind]
    refine ⟨_, _, rfl, rfl, ?_, ?_, ?_, ?_⟩
    · by_cases hbe : b.file = block_id ++ "." ++ blockExt new_type new_language
      · simp [fsWrite, fsRemove, hbe]
      · have hne : ¬ (block_id ++ "." ++ blockExt new_type new_language) = b.file :=
          fun h => hbe h.symm
        split
        · simp [fsRemove, fsWrite, hne]
        · simp [fsWrite]
    · intro hne
      have h1 : ¬ b.file = block_id ++ "." ++ blockExt new_type new_language :=
        fun h => hne h.symm
      cases hdf : d.files b.file with
      | none => simp [fsWrite, fsRemove, h1, hdf]
      | some v => simp [fsWrite, fsRemove, h1, hdf]
    · intro heq
      rw [← heq]
      simp [fsWrite, fsRemove]
    · intro nm h1 h2
      split
      · simp [fsRemove, fsWrite, h1, h2]
      · simp [fsWrite, h2]

/-- Witness for claim C3: changing the one markdown block of `nb1` to code
with language python renames `b1.md` to `b1.py`, preserves id and content,
and deletes the old file. -/
theorem change_block_type_spec_witness :
    ∃ d' tr, change_block_type nb1 "b1" BlockType.code (some "python") =
        Except.ok ({ id := "b1", block_type := BlockType.code, language := some "python", content := "# hi", encrypted := none }, d', tr) ∧
      d'.files "b1.py" = some "# hi" ∧
      d'.files "b1.md" = none := by
  obtain ⟨d', tr, h1, _, h3, h4, _, _⟩ :=
    (change_block_type_spec nb1 nbIdx1 "b1" BlockType.code (some "python") rfl).2
      0 nbBlock1 (by decide)
  exact ⟨d', tr, h1, h3, h4 (by decide)⟩

/-- Field-by-field behaviour of `applyTaskUpdates`: id and created are
preserved, a present title/status replaces, a present empty
priority/due clears while a non-empty one replaces and an absent one is
untouched, and updated is always set to `now`. -/
theorem applyTaskUpdates_fields (t : KanbanTask) (updates : TaskUpdates) (now : String) :
    (applyTaskUpdates t updates now).id = t.id ∧
    (applyTaskUpdates t updates now).title = updates.title.getD t.title ∧
    (applyTaskUpdates t updates now).status = updates.status.getD t.status ∧
    (applyTaskUpdates t updates now).priority = (match updates.priority with | none => t.priority | some v => if strIsEmpty v then none else some v) ∧
    (applyTaskUpdates t updates now).due = (match updates.due with | none => t.due | some v => if strIsEmpty v then none else some v) ∧
    (applyTaskUpdates t updates now).created = t.created ∧
    (applyTaskUpdates t updates now).updated = now := by
  rcases updates with ⟨ot, os, op, od, odesc⟩
  cases ot <;> cases os <;> cases op <;> cases od <;> simp [applyTaskUpdates]

/-- Claim C8: `update_kanban_task` fails with `NotFound` when no task has the
given id; otherwise it rewrites exactly the found task in the manifest with
the partial updates applied — present title/status replace, a present empty
priority/due clears the field while a non-empty one replaces it, absent
fields stay unchanged — and the task's updated timestamp is always
refreshed. -/
theorem update_kanban_task_spec (d : KanbanDir) (idx : KanbanIndex) (now task_id : String)
    (updates : TaskUpdates) (hidx : d.index = some idx) :
    ((∀ t ∈ idx.tasks, t.id ≠ task_id) →
      update_kanban_task d now task_id updates =
        Except.error (FsError.NotFound ("Task not found: " ++ task_id))) ∧
    (∀ pos t, findWithPos (fun x => decide (x.id = task_id)) idx.tasks = some (pos, t) →
      ∃ r d' tr, update_kanban_task d now task_id updates = Except.ok (r, d', tr) ∧
        d'.index = some { idx with tasks := setAt idx.tasks pos (applyTaskUpdates t updates now) } ∧
        r.id = t.id ∧
        r.updated = now) ∧
    (∀ t, (applyTaskUpdates t updates now).id = t.id ∧
      (applyTaskUpdates t updates now).title = updates.title.getD t.title ∧
      (applyTaskUpdates t updates now).status = updates.status.getD t.status ∧
      (applyTaskUpdates t updates now).priority = (match updates.priority with | none => t.priority | some v => if strIsEmpty v then none else some v) ∧
      (applyTaskUpdates t updates now).due = (match updates.due with | none => t.due | some v => if strIsEmpty v then none else some v) ∧
      (applyTaskUpdates t updates now).created = t.created ∧
      (applyTaskUpdates t updates now).updated = now) := by
  refine ⟨?_, ?_, fun t => applyTaskUpdates_fields t updates now⟩
  · intro h
    have hf : findWithPos (fun x => decide (x.id = task_id)) idx.tasks = none :=
      findWithPos_eq_none (fun x hx => by simpa using h x hx)
    simp [update_kanban_task, read_kanban_index, hidx, hf]
  · intro pos t hfind
    have hfld := applyTaskUpdates_fields t updates now
    cases hdesc : updates.description with
    | some desc =>
      simp only [update_kanban_task, read_kanban_index, hidx, hfind, hdesc]
      exact ⟨_, _, _, rfl, rfl, hfld.1, hfld.2.2.2.2.2.2⟩
    | none =>
      simp only [update_kanban_task, read_kanban_index, hidx, hfind, hdesc]
      exact ⟨_, _, _, rfl, rfl, hfld.1, hfld.2.2.2.2.2.2⟩

/-- Witness for claim C8 on the one-task board: an explicit empty-string
priority clears the field, an all-absent update leaves priority untouched,
and both refresh `updated`. -/
theorem update_kanban_task_spec_witness :
    (applyTaskUpdates kTask1 { title := none, status := none, priority := some "", due := none, description := none } "2024-02-02T00:00:00Z").priority = none ∧
    (applyTaskUpdates kTask1 { title := none, status := none, priority := none, due := none, description := none } "2024-02-02T00:00:00Z").priority = kTask1.priority ∧
    (applyTaskUpdates kTask1 { title := none, status := none, priority := none, due := none, description := none } "2024-02-02T00:00:00Z").updated = "2024-02-02T00:00:00Z" ∧
    (∃ r d' tr, update_kanban_task kb1 "2024-02-02T00:00:00Z" "t1" { title := none, status := none, priority := some "", due := none, description := none } = Except.ok (r, d', tr) ∧ r.updated = "2024-02-02T00:00:00Z") := by
  have h1 := update_kanban_task_spec kb1 kidx1 "2024-02-02T00:00:00Z" "t1"
    { title := none, status := none, priority := some "", due := none, description := none } rfl
  have h2 := update_kanban_task_spec kb1 kidx1 "2024-02-02T00:00:00Z" "t1"
    { title := none, status := none, priority := none, due := none, description := none } rfl
  refine ⟨(h1.2.2 kTask1).2.2.2.1, (h2.2.2 kTask1).2.2.2.1, (h2.2.2 kTask1).2.2.2.2.2.2, ?_⟩
  obtain ⟨r, d', tr, ha, _, _, hd⟩ := h1.2.1 0 kTask1 (by decide)
  exact ⟨r, d', tr, ha, hd⟩

/-- Claim C6: the sample document splits into exactly three fragments —
Markdown "# Title", Code python "print(1)", Markdown "More text" — and in
general a line beginning with three backticks toggles the fence state,
entering a fence emits the accumulated markdown trimmed (dropped if blank)
and records the fence line's text after the backticks as the language tag,
and leaving a fence emits the code fragment (empty tag becoming no
language). -/
theorem parse_markdown_blocks_spec :
    parse_markdown_blocks "# Title\n\n```python\nprint(1)\n```\n\nMore text" =
      [{ is_code := false, language := none, content := "# Title" },
       { is_code := true, language := some "python", content := "print(1)" },
       { is_code := false, language := none, content := "More text" }] ∧
    (∀ st line, startsWithTicks line = true →
      (parseLine st line).in_code_block = !st.in_code_block) ∧
    (∀ st line, startsWithTicks line = true → st.in_code_block = false →
      (parseLine st line).blocks = st.blocks ++ (if strIsEmpty (trimStr st.current_text) then [] else [{ is_code := false, language := none, content := trimStr st.current_text }]) ∧
      (parseLine st line).code_language = dropTicks line) ∧
    (∀ st line, startsWithTicks line = true → st.in_code_block = true →
      (parseLine st line).blocks = st.blocks ++ [{ is_code := true, language := if strIsEmpty st.code_language then none else some st.code_language, content := trimEndStr st.code_content }]) := by
  refine ⟨by decide, ?_, ?_, ?_⟩
  · intro st line h
    cases hc : st.in_code_block <;> simp [parseLine, h, hc]
  · intro st line h hc
    constructor
    · cases he : strIsEmpty (trimStr st.current_text) <;> simp [parseLine, h, hc, he]
    · simp [parseLine, h, hc]
  · intro st line h hc
    simp [parseLine, h, hc]

/-- Witness for claim C6: a fence line flips the state out of markdown mode
and records "python" as the tag, and a closing fence emits the accumulated
code fragment. -/
theorem parse_markdown_blocks_spec_witness :
    (parseLine initState "```python").in_code_block = !initState.in_code_block ∧
    (parseLine initState "```python").code_language = dropTicks "```python" ∧
    (parseLine { initState with in_code_block := true, code_language := "sh", code_content := "echo hi" } "```").blocks =
      [{ is_code := true, language := some "sh", content := "echo hi" }] := by
  have h := parse_markdown_blocks_spec
  refine ⟨h.2.1 initState "```python" (by decide),
    (h.2.2.1 initState "```python" (by decide) rfl).2, ?_⟩
  exact h.2.2.2 { initState with in_code_block := true, code_language := "sh", code_content := "echo hi" }
    "```" (by decide) rfl

/-- Claim C7: an input that ends while still inside a code fence emits the
accumulated unterminated fence as a code fragment (trailing newline
trimmed) instead of erroring; in particular the two-line unterminated input
yields exactly one Code fragment with language "sh" and content
"echo hi". -/
theorem parse_markdown_blocks_unterminated_fence :
    parse_markdown_blocks "```sh\necho hi" =
      [{ is_code := true, language := some "sh", content := "echo hi" }] ∧
    (∀ content st, (rustLines content).foldl parseLine initState = st →
      st.in_code_block = true →
      parse_markdown_blocks content = st.blocks ++ [{ is_code := true, language := if strIsEmpty st.code_language then none else some st.code_language, content := trimEndStr st.code_content }]) := by
  constructor
  · decide
  · intro content st hfold hc
    simp [parse_markdown_blocks, finalizeParse, hfold, hc]

/-- Witness for claim C7 at the unterminated-fence input: the final loop
state is inside a fence with tag "sh" and body "echo hi", and the parse
emits it as the single code fragment. -/
theorem parse_markdown_blocks_unterminated_fence_witness :
    parse_markdown_blocks "```sh\necho hi" =
      [{ is_code := true, language := some "sh", content := "echo hi" }] :=
  parse_markdown_blocks_unterminated_fence.2 "```sh\necho hi"
    { blocks := [], current_text := "", in_code_block := true, code_language := "sh", code_content := "echo hi" }
    (by decide) rfl
